import Mathlib

/-!
Shallow embedding of the two Mycodo sensor input modules
(`mycodo/inputs/bmp280.py` and `mycodo/inputs/ds1822.py`).

Conventions of the embedding:
* Python integers are `Int` (arbitrary precision, as in Python 3).
* Python `a >> n` on integers is an arithmetic (floor) shift, embedded as
  `Int.fdiv a (2 ^ n)`; `a << n` is `a * 2 ^ n`.
* Python `int(a / b)` (true float division followed by truncation toward
  zero) is embedded as truncating integer division `Int.tdiv` of the exact
  quotient; the double-precision rounding of the quotient is abstracted
  away (at every input evaluated concretely below the truncated double
  quotient coincides with the truncated exact quotient).
* Python floats produced by the final `x / 100.0` and `x / 256.0` scalings
  are embedded as exact rationals (`ℚ`).
* The I2C device is a pure map from register address to byte value, and
  every bus interaction (control-register write, settle sleep, data-byte
  read) is recorded in an explicit event trace.
-/

namespace Mycodo

/-- Python `a >> n` on (possibly negative) integers: floor division by `2 ^ n`. -/
def shr (a : Int) (n : Nat) : Int := Int.fdiv a (2 ^ n)

/-- Python `a << n` on integers: multiplication by `2 ^ n`. -/
def shl (a : Int) (n : Nat) : Int := a * 2 ^ n

/-- The 12 BMP280 calibration constants, as loaded by `_load_calibration`
(`T1`/`P1` unsigned 16-bit, the rest signed 16-bit on real hardware). -/
structure Calib where
  T1 : Int
  T2 : Int
  T3 : Int
  P1 : Int
  P2 : Int
  P3 : Int
  P4 : Int
  P5 : Int
  P6 : Int
  P7 : Int
  P8 : Int
  P9 : Int
deriving Repr, DecidableEq

/-- The datasheet example calibration set of `_load_datasheet_calibration`. -/
def datasheetCalib : Calib :=
  { T1 := 27504, T2 := 26435, T3 := -1000
    P1 := 36477, P2 := -10685, P3 := 3024, P4 := 2855, P5 := 140
    P6 := -7, P7 := 15500, P8 := -14600, P9 := 6000 }

/-- Mutable per-instance state of the BMP280 `InputModule`: the calibration
set, the operating mode, and the cached fine temperature `_tfine`
(initialised to the sentinel `0` by `__init__`). -/
structure BMP280State where
  cal : Calib
  mode : Nat
  tfine : Int
deriving Repr, DecidableEq

/-- One observable bus interaction of the BMP280 driver. -/
inductive DevEvent where
  /-- `self._device.write8 reg val` -/
  | write8 (reg val : Nat)
  /-- `time.sleep` of the given number of milliseconds -/
  | sleepMs (ms : Nat)
  /-- `self._device.readU8 reg` -/
  | readU8 (reg : Nat)
deriving Repr, DecidableEq

/-- The I2C device as seen through `readU8`: a map from register to byte. -/
def Device : Type := Nat → Nat

/-- Register constants from the source. -/
def BMP280_REGISTER_CONTROL : Nat := 0xF4

def BMP280_REGISTER_PRESSUREDATA_MSB : Nat := 0xF7

def BMP280_REGISTER_PRESSUREDATA_LSB : Nat := 0xF8

def BMP280_REGISTER_PRESSUREDATA_XLSB : Nat := 0xF9

def BMP280_REGISTER_TEMPDATA_MSB : Nat := 0xFA

def BMP280_REGISTER_TEMPDATA_LSB : Nat := 0xFB

def BMP280_REGISTER_TEMPDATA_XLSB : Nat := 0xFC

def BMP280_READCMD : Nat := 0x3F

/-- The settle delay (in milliseconds) of the `if/elif/else` chain shared by
`read_raw_temp` and `read_raw_pressure`: mode 0 sleeps 0.005 s, mode 2
sleeps 0.014 s, mode 3 sleeps 0.026 s, anything else sleeps 0.008 s. -/
def settleDelayMs (mode : Nat) : Nat :=
  if mode = 0 then 5
  else if mode = 2 then 14
  else if mode = 3 then 26
  else 8

/-- `read_raw_temp`: write `BMP280_READCMD + (mode << 6)` to the control
register, sleep the mode-dependent delay, read MSB/LSB/XLSB from the
temperature data registers and combine them as
`((msb << 8 | lsb) << 8 | xlsb) >> 4`. Returns the raw code and the trace. -/
def read_raw_temp (mode : Nat) (dev : Device) : Int × List DevEvent :=
  let msb := dev BMP280_REGISTER_TEMPDATA_MSB
  let lsb := dev BMP280_REGISTER_TEMPDATA_LSB
  let xlsb := dev BMP280_REGISTER_TEMPDATA_XLSB
  let raw : Int := Int.ofNat (((((msb <<< 8) ||| lsb) <<< 8) ||| xlsb) >>> 4)
  (raw,
   [DevEvent.write8 BMP280_REGISTER_CONTROL (BMP280_READCMD + (mode <<< 6)),
    DevEvent.sleepMs (settleDelayMs mode),
    DevEvent.readU8 BMP280_REGISTER_TEMPDATA_MSB,
    DevEvent.readU8 BMP280_REGISTER_TEMPDATA_LSB,
    DevEvent.readU8 BMP280_REGISTER_TEMPDATA_XLSB])

/-- `read_raw_pressure`: same protocol on the pressure data registers. -/
def read_raw_pressure (mode : Nat) (dev : Device) : Int × List DevEvent :=
  let msb := dev BMP280_REGISTER_PRESSUREDATA_MSB
  let lsb := dev BMP280_REGISTER_PRESSUREDATA_LSB
  let xlsb := dev BMP280_REGISTER_PRESSUREDATA_XLSB
  let raw : Int := Int.ofNat (((((msb <<< 8) ||| lsb) <<< 8) ||| xlsb) >>> 4)
  (raw,
   [DevEvent.write8 BMP280_REGISTER_CONTROL (BMP280_READCMD + (mode <<< 6)),
    DevEvent.sleepMs (settleDelayMs mode),
    DevEvent.readU8 BMP280_REGISTER_PRESSUREDATA_MSB,
    DevEvent.readU8 BMP280_REGISTER_PRESSUREDATA_LSB,
    DevEvent.readU8 BMP280_REGISTER_PRESSUREDATA_XLSB])

/-- The fine-temperature computation of `read_temperature`:
`TMP_PART1 + TMP_PART2` with
`TMP_PART1 = (((adc_T >> 3) - (T1 << 1)) * T2) >> 11` and
`TMP_PART2 = (((((adc_T >> 4) - T1) * ((adc_T >> 4) - T1)) >> 12) * T3) >> 14`. -/
def tempFine (cal : Calib) (adc_T : Int) : Int :=
  let part1 := shr ((shr adc_T 3 - shl cal.T1 1) * cal.T2) 11
  let part2 := shr (shr ((shr adc_T 4 - cal.T1) * (shr adc_T 4 - cal.T1)) 12 * cal.T3) 14
  part1 + part2

/-- `read_temperature`: raw read, fine-temperature compensation, caching of
`TMP_FINE` into `_tfine`, and the Celsius value
`((TMP_FINE * 5 + 128) >> 8) / 100.0`. -/
def read_temperature (s : BMP280State) (dev : Device) :
    ℚ × BMP280State × List DevEvent :=
  let r := read_raw_temp s.mode dev
  let fine := tempFine s.cal r.1
  (((shr (fine * 5 + 128) 8 : Int) : ℚ) / 100,
   { s with tfine := fine }, r.2)

/-- The pressure compensation of `read_pressure` as a function of the fine
temperature in use and the raw pressure code. Returns `0` when the
intermediate `var1` is zero, as the source does. -/
def compensate_pressure (cal : Calib) (tfine adc_P : Int) : ℚ :=
  let var1 := tfine - 128000
  let var2 := var1 * var1 * cal.P6
  let var2 := var2 + shl (var1 * cal.P5) 17
  let var2 := var2 + shl cal.P4 35
  let var1 := shr (var1 * var1 * cal.P3) 8 + shl (var1 * cal.P2) 12
  let var1 := shr ((shl 1 47 + var1) * cal.P1) 33
  if var1 = 0 then 0
  else
    let p := 1048576 - adc_P
    let p := Int.tdiv ((shl p 31 - var2) * 3125) var1
    let v1 := shr (cal.P9 * shr p 13 * shr p 13) 25
    let v2 := shr (cal.P8 * p) 19
    let p := shr (p + v1 + v2) 8 + shl cal.P7 4
    (p : ℚ) / 256

/-- The claim's standalone formula for the pressure intermediate `var1`. -/
def pvar1 (tfine P1 P2 P3 : Int) : Int :=
  shr ((shl 1 47 +
    (shr ((tfine - 128000) * (tfine - 128000) * P3) 8 +
     shl ((tfine - 128000) * P2) 12)) * P1) 33

/-- `read_pressure`: when the cached `_tfine` is the sentinel `0` a full
temperature read runs first (updating the state), then the raw pressure is
read and compensated with the cached fine temperature. -/
def read_pressure (s : BMP280State) (dev : Device) :
    ℚ × BMP280State × List DevEvent :=
  let pre : BMP280State × List DevEvent :=
    if s.tfine = 0 then
      let t := read_temperature s dev
      (t.2.1, t.2.2)
    else (s, [])
  let s1 := pre.1
  let r := read_raw_pressure s1.mode dev
  (compensate_pressure s1.cal s1.tfine r.1, s1, pre.2 ++ r.2)

/-- The integer value scaled by `2^8` that the non-degenerate branch of
`read_pressure` divides by `256.0` (Q24.8 fixed point). -/
def pfinal (cal : Calib) (tfine adc_P : Int) : Int :=
  let var1 := tfine - 128000
  let var2 := var1 * var1 * cal.P6
  let var2 := var2 + shl (var1 * cal.P5) 17
  let var2 := var2 + shl cal.P4 35
  let p := 1048576 - adc_P
  let p := Int.tdiv ((shl p 31 - var2) * 3125) (pvar1 tfine cal.P1 cal.P2 cal.P3)
  let v1 := shr (cal.P9 * shr p 13 * shr p 13) 25
  let v2 := shr (cal.P8 * p) 19
  shr (p + v1 + v2) 8 + shl cal.P7 4

/-- The byte map used in the datasheet example: the temperature data
registers hold `0x7E 0xED 0x00` (raw code 519888) and the pressure data
registers hold `0x65 0x5A 0xC0` (raw code 415148). -/
def datasheetDev : Device := fun reg =>
  if reg = BMP280_REGISTER_TEMPDATA_MSB then 0x7E
  else if reg = BMP280_REGISTER_TEMPDATA_LSB then 0xED
  else if reg = BMP280_REGISTER_TEMPDATA_XLSB then 0x00
  else if reg = BMP280_REGISTER_PRESSUREDATA_MSB then 0x65
  else if reg = BMP280_REGISTER_PRESSUREDATA_LSB then 0x5A
  else if reg = BMP280_REGISTER_PRESSUREDATA_XLSB then 0xC0
  else 0

/-!
`get_measurement` builds `return_dict = measurements_dict.copy()` — a
*shallow* copy, so the per-channel inner dicts are the module-level
objects, shared by every call on every instance.  The embedding therefore
threads the shared per-channel `'value'` entries explicitly as a map
`g : Nat → Option ℚ` (channel index to optional value); the returned
record aliases exactly this map after the call's writes.  The fixed
`'measurement'`/`'unit'` strings of `measurements_dict` carry no dynamics
and are omitted.
-/

/-- `InputModule.get_measurement` of the BMP280 module.  `en c` is
`self.is_enabled c`; `calcAlt` is the external collaborator
`mycodo.inputs.sensorutils.calculate_altitude` (opaque for these claims).
The `getD 0` embeds the guarded dict access `return_dict[0]['value']`,
which under the guard `en 2 && en 0` is always a fresh `some`. -/
def get_measurement (en : Nat → Bool) (g : Nat → Option ℚ) (s : BMP280State)
    (dev : Device) (calcAlt : ℚ → ℚ) :
    (Nat → Option ℚ) × BMP280State × List DevEvent :=
  let step0 : (Nat → Option ℚ) × BMP280State × List DevEvent :=
    if en 0 then
      let r := read_pressure s dev
      (Function.update g 0 (some r.1), r.2.1, r.2.2)
    else (g, s, [])
  let step1 : (Nat → Option ℚ) × BMP280State × List DevEvent :=
    if en 1 then
      let r := read_temperature step0.2.1 dev
      (Function.update step0.1 1 (some r.1), r.2.1, step0.2.2 ++ r.2.2)
    else step0
  let rec2 : Nat → Option ℚ :=
    if en 2 && en 0 then
      Function.update step1.1 2 (some (calcAlt ((step1.1 0).getD 0)))
    else step1.1
  (rec2, step1.2)

end Mycodo

namespace Mycodo

/-! ### DS1822 thermometer (`mycodo/inputs/ds1822.py`) -/

/-- Outcome of one `self.sensor.get_temperature()` attempt over the 1-Wire
collaborator: either an exception or a value. -/
inductive W1Read where
  | fail
  | ok (v : ℚ)

/-- Observable side effects of the DS1822 `get_measurement`. -/
inductive DSEvent where
  /-- `time.sleep(1)` -/
  | sleepSec (sec : Nat)
  /-- `self.logger.exception(...)` in the retry loop -/
  | logReadException
  /-- `self.logger.error` for the 85 C fault signature -/
  | logError85
  /-- `self.logger.error` for the out-of-range message -/
  | logErrorRange
deriving Repr, DecidableEq

/-- The retry loop `for i in range(n): try ... except ...` of
`get_measurement` with `n = 2`: on success break with the value; on an
exception, log only when `i == n` (the source's literal guard), then sleep
one second and continue.  `rem` is the number of iterations left
(`n - i`), making the recursion structural. -/
def retryLoop (attempts : Nat → W1Read) (n : Nat) :
    Nat → Nat → Option ℚ × List DSEvent
  | _, 0 => (none, [])
  | i, rem + 1 =>
    match attempts i with
    | .ok v => (some v, [])
    | .fail =>
      let rest := retryLoop attempts n (i + 1) rem
      (rest.1,
       (if i = n then [DSEvent.logReadException] else []) ++
        DSEvent.sleepSec 1 :: rest.2)

/-- The single-channel measurement record of the DS1822 module
(`measurements_dict` has exactly the temperature channel `0`). -/
structure DS1822Record where
  temperature : Option ℚ
deriving Repr, DecidableEq

/-- The validation after the retry loop: `temperature == 85` returns the
bare `None` (no record); the literal chained comparison
`-55 > temperature > 125` (i.e. `-55 > t ∧ t > 125`) also returns `None`;
otherwise the record is returned with `'value'` set to the (possibly
absent) reading. -/
def validateReading : Option ℚ → Option DS1822Record × List DSEvent
  | some v =>
    if v = 85 then (none, [DSEvent.logError85])
    else if (-55 : ℚ) > v ∧ v > 125 then (none, [DSEvent.logErrorRange])
    else (some ⟨some v⟩, [])
  | none => (some ⟨none⟩, [])

/-- `InputModule.get_measurement` of the DS1822 module: `attempts i` is the
outcome of the `i`-th `get_temperature()` call.  Returns `none` where the
Python function returns the bare `None`, and `some record` where it
returns `return_dict`. -/
def ds1822_get_measurement (attempts : Nat → W1Read) :
    Option DS1822Record × List DSEvent :=
  let r := retryLoop attempts 2 0 2
  ((validateReading r.1).1, r.2 ++ (validateReading r.1).2)

end Mycodo

namespace Mycodo

/-- An all-zero calibration set: the degenerate data a test double reports
when nothing answers on the bus (every 16-bit register read yields 0). -/
def zeroCalib : Calib :=
  { T1 := 0, T2 := 0, T3 := 0
    P1 := 0, P2 := 0, P3 := 0, P4 := 0, P5 := 0
    P6 := 0, P7 := 0, P8 := 0, P9 := 0 }

/-- A device whose every register reads 0. -/
def zeroDev : Device := fun _ => 0

/-- Channel-enable map with only the pressure channel (index 0) enabled. -/
def enPressOnly : Nat → Bool := fun c => c == 0

/-- Channel-enable map with no channel enabled. -/
def enNone : Nat → Bool := fun _ => false

end Mycodo

namespace Mycodo

/-- Helper: the compensation branches expressed through the integer-valued
views `pvar1` and `pfinal`; definitional. -/
theorem compensate_pressure_eq (cal : Calib) (tfine adc_P : Int) :
    compensate_pressure cal tfine adc_P =
      if pvar1 tfine cal.P1 cal.P2 cal.P3 = 0 then 0
      else ((pfinal cal tfine adc_P : Int) : ℚ) / 256 := rfl

/-- Helper: the value of `read_temperature` expressed through the
integer-valued view `tempFine`; definitional. -/
theorem read_temperature_val (s : BMP280State) (dev : Device) :
    (read_temperature s dev).1 =
      ((shr (tempFine s.cal (read_raw_temp s.mode dev).1 * 5 + 128) 8 : Int) : ℚ) / 100 := rfl

/-- C4: for each of the four operating modes, the settle delay that
`read_raw_temp` and `read_raw_pressure` apply between the control-register
write and the three data-byte reads is exactly the table value:
ultra-low-power (0) 5 ms, standard (1) 8 ms, high-resolution (2) 14 ms,
ultra-high-resolution (3) 26 ms. -/
theorem settle_delay_table :
    settleDelayMs 0 = 5 ∧ settleDelayMs 1 = 8 ∧
    settleDelayMs 2 = 14 ∧ settleDelayMs 3 = 26 ∧
    ∀ (mode : Nat) (dev : Device),
      (read_raw_temp mode dev).2 =
        [DevEvent.write8 BMP280_REGISTER_CONTROL (BMP280_READCMD + (mode <<< 6)),
         DevEvent.sleepMs (settleDelayMs mode),
         DevEvent.readU8 BMP280_REGISTER_TEMPDATA_MSB,
         DevEvent.readU8 BMP280_REGISTER_TEMPDATA_LSB,
         DevEvent.readU8 BMP280_REGISTER_TEMPDATA_XLSB] ∧
      (read_raw_pressure mode dev).2 =
        [DevEvent.write8 BMP280_REGISTER_CONTROL (BMP280_READCMD + (mode <<< 6)),
         DevEvent.sleepMs (settleDelayMs mode),
         DevEvent.readU8 BMP280_REGISTER_PRESSUREDATA_MSB,
         DevEvent.readU8 BMP280_REGISTER_PRESSUREDATA_LSB,
         DevEvent.readU8 BMP280_REGISTER_PRESSUREDATA_XLSB] :=
  ⟨rfl, rfl, rfl, rfl, fun _ _ => ⟨rfl, rfl⟩⟩

/-- C5: for every valid operating mode `m < 4`, the control byte
`0x3F + (m << 6)` that the raw-read protocol writes coincides with the
spec's bitwise-OR formulation `0x3F ||| (m <<< 6)`, and the first event of
both `read_raw_temp` and `read_raw_pressure` is that control-register
write. -/
theorem control_byte_or_equiv (m : Nat) (h : m < 4) (dev : Device) :
    BMP280_READCMD ||| (m <<< 6) = BMP280_READCMD + (m <<< 6) ∧
    (read_raw_temp m dev).2.head? =
      some (DevEvent.write8 BMP280_REGISTER_CONTROL (BMP280_READCMD ||| (m <<< 6))) ∧
    (read_raw_pressure m dev).2.head? =
      some (DevEvent.write8 BMP280_REGISTER_CONTROL (BMP280_READCMD ||| (m <<< 6))) := by
  have e : BMP280_READCMD ||| (m <<< 6) = BMP280_READCMD + (m <<< 6) := by
    interval_cases m <;> decide
  exact ⟨e, by rw [e]; rfl, by rw [e]; rfl⟩

/-- Witness for C5 at the concrete mode 3 (ultra-high-resolution). -/
theorem control_byte_or_equiv_witness :
    3 < 4 ∧
    (BMP280_READCMD ||| (3 <<< 6) = BMP280_READCMD + (3 <<< 6) ∧
     (read_raw_temp 3 zeroDev).2.head? =
       some (DevEvent.write8 BMP280_REGISTER_CONTROL (BMP280_READCMD ||| (3 <<< 6))) ∧
     (read_raw_pressure 3 zeroDev).2.head? =
       some (DevEvent.write8 BMP280_REGISTER_CONTROL (BMP280_READCMD ||| (3 <<< 6)))) :=
  ⟨by decide, control_byte_or_equiv 3 (by decide) zeroDev⟩

end Mycodo

namespace Mycodo

/-- Helper: the two branches of `read_pressure`, by cases on the cached
`_tfine` sentinel. -/
theorem read_pressure_branch_eq (s : BMP280State) (dev : Device) :
    (s.tfine = 0 →
      (read_pressure s dev).2.2 =
        (read_raw_temp s.mode dev).2 ++ (read_raw_pressure s.mode dev).2 ∧
      (read_pressure s dev).2.1.tfine =
        tempFine s.cal (read_raw_temp s.mode dev).1 ∧
      (read_pressure s dev).1 =
        compensate_pressure s.cal (tempFine s.cal (read_raw_temp s.mode dev).1)
          (read_raw_pressure s.mode dev).1) ∧
    (s.tfine ≠ 0 →
      (read_pressure s dev).2.2 = (read_raw_pressure s.mode dev).2 ∧
      (read_pressure s dev).2.1 = s ∧
      (read_pressure s dev).1 =
        compensate_pressure s.cal s.tfine (read_raw_pressure s.mode dev).1) := by
  constructor
  · intro h
    simp [read_pressure, read_temperature, h]
  · intro h
    simp [read_pressure, h]

/-- C3: when the cached `FineTemperature` equals the sentinel 0,
`read_pressure` first performs the full temperature read — control-register
write, settle delay and the three temperature data-byte reads, i.e. exactly
the `read_raw_temp` trace — ahead of the pressure-read trace, and the
compensation that produces the result uses the freshly cached fine
temperature; when the cached value is nonzero, the trace is the pressure
read alone, the state is untouched, and the cached value is used as is. -/
theorem read_pressure_lazy_temperature (s : BMP280State) (dev : Device) :
    (s.tfine = 0 →
      (read_pressure s dev).2.2 =
        (read_raw_temp s.mode dev).2 ++ (read_raw_pressure s.mode dev).2 ∧
      (read_pressure s dev).2.1.tfine =
        tempFine s.cal (read_raw_temp s.mode dev).1 ∧
      (read_pressure s dev).1 =
        compensate_pressure s.cal (tempFine s.cal (read_raw_temp s.mode dev).1)
          (read_raw_pressure s.mode dev).1) ∧
    (s.tfine ≠ 0 →
      (read_pressure s dev).2.2 = (read_raw_pressure s.mode dev).2 ∧
      (read_pressure s dev).2.1 = s ∧
      (read_pressure s dev).1 =
        compensate_pressure s.cal s.tfine (read_raw_pressure s.mode dev).1) :=
  read_pressure_branch_eq s dev

/-- Witness for C3: both branches at concrete states — a fresh instance
(sentinel 0) with the datasheet device, and an instance with the datasheet
fine temperature 128422 already cached. -/
theorem read_pressure_lazy_temperature_witness :
    ((⟨datasheetCalib, 1, 0⟩ : BMP280State).tfine = 0 ∧
      ((read_pressure ⟨datasheetCalib, 1, 0⟩ datasheetDev).2.2 =
        (read_raw_temp 1 datasheetDev).2 ++ (read_raw_pressure 1 datasheetDev).2 ∧
       (read_pressure ⟨datasheetCalib, 1, 0⟩ datasheetDev).2.1.tfine =
        tempFine datasheetCalib (read_raw_temp 1 datasheetDev).1 ∧
       (read_pressure ⟨datasheetCalib, 1, 0⟩ datasheetDev).1 =
        compensate_pressure datasheetCalib
          (tempFine datasheetCalib (read_raw_temp 1 datasheetDev).1)
          (read_raw_pressure 1 datasheetDev).1)) ∧
    ((⟨datasheetCalib, 1, 128422⟩ : BMP280State).tfine ≠ 0 ∧
      ((read_pressure ⟨datasheetCalib, 1, 128422⟩ datasheetDev).2.2 =
        (read_raw_pressure 1 datasheetDev).2 ∧
       (read_pressure ⟨datasheetCalib, 1, 128422⟩ datasheetDev).2.1 =
        ⟨datasheetCalib, 1, 128422⟩ ∧
       (read_pressure ⟨datasheetCalib, 1, 128422⟩ datasheetDev).1 =
        compensate_pressure datasheetCalib 128422
          (read_raw_pressure 1 datasheetDev).1)) :=
  ⟨⟨rfl, (read_pressure_lazy_temperature ⟨datasheetCalib, 1, 0⟩ datasheetDev).1 rfl⟩,
   ⟨by decide, (read_pressure_lazy_temperature ⟨datasheetCalib, 1, 128422⟩ datasheetDev).2
      (by decide)⟩⟩

/-- C2: for every sensor state and device for which the
pressure-compensation intermediate `var1` — computed by the claim's formula
`(((1 <<< 47) + (((t-128000)*(t-128000)*P3) >>> 8) + (((t-128000)*P2) <<< 12)) * P1) >>> 33`
from the fine temperature `t` actually used by the call (the state's cached
value, or the freshly computed one when the cache holds the sentinel 0) —
evaluates to exactly zero, `read_pressure` returns exactly 0; the embedding
is a total function, so no error is raised on this path. -/
theorem read_pressure_zero_var1 (s : BMP280State) (dev : Device)
    (h : pvar1
      (if s.tfine = 0 then tempFine s.cal (read_raw_temp s.mode dev).1 else s.tfine)
      s.cal.P1 s.cal.P2 s.cal.P3 = 0) :
    (read_pressure s dev).1 = 0 := by
  by_cases h0 : s.tfine = 0
  · rw [if_pos h0] at h
    rcases (read_pressure_branch_eq s dev).1 h0 with ⟨-, -, hv⟩
    rw [hv, compensate_pressure_eq, if_pos h]
  · rw [if_neg h0] at h
    rcases (read_pressure_branch_eq s dev).2 h0 with ⟨-, -, hv⟩
    rw [hv, compensate_pressure_eq, if_pos h]

/-- Witness for C2: an instance with nonzero cached fine temperature and an
all-zero calibration set (`P1 = 0` forces `var1 = 0`). -/
theorem read_pressure_zero_var1_witness :
    pvar1
      (if (⟨zeroCalib, 1, 1⟩ : BMP280State).tfine = 0 then
        tempFine (⟨zeroCalib, 1, 1⟩ : BMP280State).cal
          (read_raw_temp (⟨zeroCalib, 1, 1⟩ : BMP280State).mode zeroDev).1
       else (⟨zeroCalib, 1, 1⟩ : BMP280State).tfine)
      zeroCalib.P1 zeroCalib.P2 zeroCalib.P3 = 0 ∧
    (read_pressure ⟨zeroCalib, 1, 1⟩ zeroDev).1 = 0 :=
  ⟨by decide, read_pressure_zero_var1 ⟨zeroCalib, 1, 1⟩ zeroDev (by decide)⟩

end Mycodo

namespace Mycodo

/-- C1 (amended): for every state and device — with the raw ADC code a
20-bit value and the calibration triple in its datasheet ranges (`T1`
unsigned 16-bit, `T2`, `T3` signed 16-bit) — `read_temperature` caches
`part1 + part2` (with `part1 = ((raw >> 3) - (T1 << 1)) * T2 >> 11` and
`part2 = (((((raw >> 4) - T1) * ((raw >> 4) - T1)) >> 12) * T3) >> 14`) in
the fine-temperature field and returns `((fine * 5 + 128) >> 8) / 100.0`;
with the datasheet calibration constants (T1 = 27504, T2 = 26435,
T3 = -1000, P1..P9 per the fixture) and the datasheet example raw codes
(adc_T = 519888, adc_P = 415148), `read_temperature` yields exactly the
datasheet's expected 25.08 °C, and a subsequent `read_pressure` using the
cached fine temperature yields 25767233/256 Pa, which is within 2e-2
(amended from the claimed 1e-2) of the datasheet's expected 100653.27 Pa. -/
theorem read_temperature_formula_and_datasheet (s : BMP280State) (dev : Device)
    (hraw : 0 ≤ (read_raw_temp s.mode dev).1 ∧ (read_raw_temp s.mode dev).1 < 2 ^ 20)
    (hT1 : 0 ≤ s.cal.T1 ∧ s.cal.T1 < 2 ^ 16)
    (hT2 : -(2 ^ 15) ≤ s.cal.T2 ∧ s.cal.T2 < 2 ^ 15)
    (hT3 : -(2 ^ 15) ≤ s.cal.T3 ∧ s.cal.T3 < 2 ^ 15) :
    (read_temperature s dev).2.1.tfine =
      shr ((shr (read_raw_temp s.mode dev).1 3 - shl s.cal.T1 1) * s.cal.T2) 11 +
      shr (shr ((shr (read_raw_temp s.mode dev).1 4 - s.cal.T1) *
        (shr (read_raw_temp s.mode dev).1 4 - s.cal.T1)) 12 * s.cal.T3) 14 ∧
    (read_temperature s dev).1 =
      ((shr ((read_temperature s dev).2.1.tfine * 5 + 128) 8 : Int) : ℚ) / 100 ∧
    (read_temperature ⟨datasheetCalib, 1, 0⟩ datasheetDev).1 = 2508 / 100 ∧
    (read_pressure (read_temperature ⟨datasheetCalib, 1, 0⟩ datasheetDev).2.1
        datasheetDev).1 = ((25767233 : Int) : ℚ) / 256 ∧
    |(read_pressure (read_temperature ⟨datasheetCalib, 1, 0⟩ datasheetDev).2.1
        datasheetDev).1 - 10065327 / 100| ≤ 2 / 100 := by
  have htemp : (read_temperature ⟨datasheetCalib, 1, 0⟩ datasheetDev).1 = 2508 / 100 := by
    have h : (read_temperature ⟨datasheetCalib, 1, 0⟩ datasheetDev).1
        = ((2508 : Int) : ℚ) / 100 :=
      congrArg (fun z : Int => ((z : ℚ) / 100))
        (by decide :
          shr (tempFine datasheetCalib (read_raw_temp 1 datasheetDev).1 * 5 + 128) 8 = 2508)
    rw [h]; norm_num
  have hpress : (read_pressure (read_temperature ⟨datasheetCalib, 1, 0⟩ datasheetDev).2.1
      datasheetDev).1 = ((25767233 : Int) : ℚ) / 256 := by
    show compensate_pressure datasheetCalib
      (tempFine datasheetCalib (read_raw_temp 1 datasheetDev).1)
      (read_raw_pressure 1 datasheetDev).1 = _
    rw [compensate_pressure_eq, if_neg (by decide)]
    exact congrArg (fun z : Int => ((z : ℚ) / 256))
      (by decide : pfinal datasheetCalib
        (tempFine datasheetCalib (read_raw_temp 1 datasheetDev).1)
        (read_raw_pressure 1 datasheetDev).1 = 25767233)
  refine ⟨rfl, rfl, htemp, hpress, ?_⟩
  rw [hpress, abs_le]
  constructor <;> norm_num

/-- Witness for C1 at the datasheet state and device (raw code 519888 is a
20-bit value, T1 = 27504 fits unsigned 16-bit, T2 = 26435 and T3 = -1000
fit signed 16-bit). -/
theorem read_temperature_formula_and_datasheet_witness :
    (0 ≤ (read_raw_temp 1 datasheetDev).1 ∧ (read_raw_temp 1 datasheetDev).1 < 2 ^ 20) ∧
    (0 ≤ datasheetCalib.T1 ∧ datasheetCalib.T1 < 2 ^ 16) ∧
    (-(2 ^ 15) ≤ datasheetCalib.T2 ∧ datasheetCalib.T2 < 2 ^ 15) ∧
    (-(2 ^ 15) ≤ datasheetCalib.T3 ∧ datasheetCalib.T3 < 2 ^ 15) ∧
    ((read_temperature ⟨datasheetCalib, 1, 0⟩ datasheetDev).2.1.tfine =
      shr ((shr (read_raw_temp 1 datasheetDev).1 3 - shl datasheetCalib.T1 1) *
        datasheetCalib.T2) 11 +
      shr (shr ((shr (read_raw_temp 1 datasheetDev).1 4 - datasheetCalib.T1) *
        (shr (read_raw_temp 1 datasheetDev).1 4 - datasheetCalib.T1)) 12 *
        datasheetCalib.T3) 14 ∧
     (read_temperature ⟨datasheetCalib, 1, 0⟩ datasheetDev).1 =
      ((shr ((read_temperature ⟨datasheetCalib, 1, 0⟩ datasheetDev).2.1.tfine * 5 + 128) 8 :
        Int) : ℚ) / 100 ∧
     (read_temperature ⟨datasheetCalib, 1, 0⟩ datasheetDev).1 = 2508 / 100 ∧
     (read_pressure (read_temperature ⟨datasheetCalib, 1, 0⟩ datasheetDev).2.1
        datasheetDev).1 = ((25767233 : Int) : ℚ) / 256 ∧
     |(read_pressure (read_temperature ⟨datasheetCalib, 1, 0⟩ datasheetDev).2.1
        datasheetDev).1 - 10065327 / 100| ≤ 2 / 100) :=
  ⟨by decide, by decide, by decide, by decide,
   read_temperature_formula_and_datasheet ⟨datasheetCalib, 1, 0⟩ datasheetDev
     (by decide) (by decide) (by decide) (by decide)⟩

/-- Counterexample for C1 as stated: at the datasheet inputs the code's
64-bit integer pressure path returns exactly 25767233/256 Pa
(= 100653.25390625), while the datasheet's expected compensated pressure —
the published double-precision example result — is 100653.27 Pa; the
difference is 103/6400 = 0.01609375, which exceeds the claimed tolerance
1e-2. -/
theorem datasheet_pressure_outside_claimed_tolerance :
    (read_pressure (read_temperature ⟨datasheetCalib, 1, 0⟩ datasheetDev).2.1
        datasheetDev).1 = ((25767233 : Int) : ℚ) / 256 ∧
    ¬ |(read_pressure (read_temperature ⟨datasheetCalib, 1, 0⟩ datasheetDev).2.1
        datasheetDev).1 - 10065327 / 100| ≤ 1 / 100 := by
  have hpress : (read_pressure (read_temperature ⟨datasheetCalib, 1, 0⟩ datasheetDev).2.1
      datasheetDev).1 = ((25767233 : Int) : ℚ) / 256 := by
    show compensate_pressure datasheetCalib
      (tempFine datasheetCalib (read_raw_temp 1 datasheetDev).1)
      (read_raw_pressure 1 datasheetDev).1 = _
    rw [compensate_pressure_eq, if_neg (by decide)]
    exact congrArg (fun z : Int => ((z : ℚ) / 256))
      (by decide : pfinal datasheetCalib
        (tempFine datasheetCalib (read_raw_temp 1 datasheetDev).1)
        (read_raw_pressure 1 datasheetDev).1 = 25767233)
  refine ⟨hpress, ?_⟩
  rw [hpress]
  intro hc
  have h1 := (abs_le.mp hc).1
  norm_num at h1
end Mycodo

namespace Mycodo

/-- C6: `get_measurement` populates the altitude channel (index 2) if and
only if both the altitude channel and the pressure channel (index 0) are
enabled, and in that case the altitude value is `calculate_altitude`
applied to exactly the pressure value obtained by this same call's
`read_pressure`; otherwise the channel keeps its prior (shared) content. -/
theorem get_measurement_altitude_channel (en : Nat → Bool) (g : Nat → Option ℚ)
    (s : BMP280State) (dev : Device) (calcAlt : ℚ → ℚ) :
    (get_measurement en g s dev calcAlt).1 2 =
      if en 2 && en 0 then some (calcAlt (read_pressure s dev).1) else g 2 := by
  by_cases h0 : en 0 <;> by_cases h1 : en 1 <;> by_cases h2 : en 2 <;>
    simp [get_measurement, h0, h1, h2, Function.update]

/-- Helper: channels that a `get_measurement` call does not write keep the
value already stored in the shared per-channel sub-records. -/
theorem get_measurement_unwritten_eq (en : Nat → Bool) (g : Nat → Option ℚ)
    (s : BMP280State) (dev : Device) (calcAlt : ℚ → ℚ) :
    (en 0 = false → (get_measurement en g s dev calcAlt).1 0 = g 0) ∧
    (en 1 = false → (get_measurement en g s dev calcAlt).1 1 = g 1) ∧
    ((en 2 && en 0) = false → (get_measurement en g s dev calcAlt).1 2 = g 2) := by
  refine ⟨fun h0 => ?_, fun h1 => ?_, fun h2 => ?_⟩
  · by_cases h1 : en 1 <;> by_cases h2 : en 2 <;>
      simp [get_measurement, h0, h1, h2, Function.update]
  · by_cases h0 : en 0 <;> by_cases h2 : en 2 <;>
      simp [get_measurement, h0, h1, h2, Function.update]
  · by_cases h0 : en 0 <;> by_cases h1 : en 1 <;>
      simp [get_measurement, h0, h1, h2, Function.update] <;> simp_all

/-- C7 (amended): a channel that is not enabled for a call is not written
by that call, but the record the call returns aliases the module-level
per-channel sub-records (`measurements_dict.copy()` is shallow), so a
disabled channel carries whatever value those shared sub-records already
held — absent only if no earlier call on any instance populated it. -/
theorem get_measurement_frame (en : Nat → Bool) (g : Nat → Option ℚ)
    (s : BMP280State) (dev : Device) (calcAlt : ℚ → ℚ) :
    (en 0 = false → (get_measurement en g s dev calcAlt).1 0 = g 0) ∧
    (en 1 = false → (get_measurement en g s dev calcAlt).1 1 = g 1) ∧
    ((en 2 && en 0) = false → (get_measurement en g s dev calcAlt).1 2 = g 2) :=
  get_measurement_unwritten_eq en g s dev calcAlt

/-- Witness for C7 (amended): a call with every channel disabled returns
the shared record unchanged. -/
theorem get_measurement_frame_witness :
    (enNone 0 = false ∧
      (get_measurement enNone (fun _ => some 7) ⟨zeroCalib, 1, 1⟩ zeroDev
        (fun q => q)).1 0 = (fun _ => some (7 : ℚ)) 0) ∧
    (enNone 1 = false ∧
      (get_measurement enNone (fun _ => some 7) ⟨zeroCalib, 1, 1⟩ zeroDev
        (fun q => q)).1 1 = (fun _ => some (7 : ℚ)) 1) ∧
    ((enNone 2 && enNone 0) = false ∧
      (get_measurement enNone (fun _ => some 7) ⟨zeroCalib, 1, 1⟩ zeroDev
        (fun q => q)).1 2 = (fun _ => some (7 : ℚ)) 2) :=
  ⟨⟨rfl, (get_measurement_frame enNone (fun _ => some 7) ⟨zeroCalib, 1, 1⟩ zeroDev
      (fun q => q)).1 rfl⟩,
   ⟨rfl, (get_measurement_frame enNone (fun _ => some 7) ⟨zeroCalib, 1, 1⟩ zeroDev
      (fun q => q)).2.1 rfl⟩,
   ⟨rfl, (get_measurement_frame enNone (fun _ => some 7) ⟨zeroCalib, 1, 1⟩ zeroDev
      (fun q => q)).2.2 rfl⟩⟩

/-- Counterexample for C7 as stated: a first call with only the pressure
channel enabled writes the shared channel-0 sub-record; a second call with
every channel disabled returns a record whose channel 0 still carries that
earlier value (`some 0`, the degenerate pressure of the all-zero
calibration), not the absent marker — the record is not produced fresh. -/
theorem get_measurement_stale_channel_value :
    enNone 0 = false ∧
    (get_measurement enNone
      (get_measurement enPressOnly (fun _ => none) ⟨zeroCalib, 1, 0⟩ zeroDev
        (fun q => q)).1
      (get_measurement enPressOnly (fun _ => none) ⟨zeroCalib, 1, 0⟩ zeroDev
        (fun q => q)).2.1
      zeroDev (fun q => q)).1 0 = some 0 := by
  exact ⟨rfl, by decide⟩

end Mycodo

namespace Mycodo

/-- C8 (amended): whenever the retry loop exits with a successful reading
of exactly 85 (the known bus-fault signature), `get_measurement` logs the
fault and — regardless of the retry count remaining — returns the bare
Python `None` (no measurement record at all), rather than a record whose
temperature value is the absent marker; nothing is raised. -/
theorem ds1822_sentinel_policy (attempts : Nat → W1Read)
    (h : (retryLoop attempts 2 0 2).1 = some 85) :
    (ds1822_get_measurement attempts).1 = none ∧
    (ds1822_get_measurement attempts).2 =
      (retryLoop attempts 2 0 2).2 ++ [DSEvent.logError85] := by
  constructor <;> simp [ds1822_get_measurement, h, validateReading]

/-- Witness for C8 (amended): the first attempt succeeds with 85. -/
theorem ds1822_sentinel_policy_witness :
    (retryLoop (fun _ => W1Read.ok 85) 2 0 2).1 = some 85 ∧
    ((ds1822_get_measurement (fun _ => W1Read.ok 85)).1 = none ∧
     (ds1822_get_measurement (fun _ => W1Read.ok 85)).2 =
       (retryLoop (fun _ => W1Read.ok 85) 2 0 2).2 ++ [DSEvent.logError85]) :=
  ⟨by decide, ds1822_sentinel_policy (fun _ => W1Read.ok 85) (by decide)⟩

/-- Counterexample for C8 as stated: when the raw read succeeds with
exactly 85, `get_measurement` returns `None` — no `MeasurementRecord` at
all — not a single-channel record carrying the absent marker. -/
theorem ds1822_sentinel_returns_none :
    (ds1822_get_measurement (fun _ => W1Read.ok 85)).1 = none ∧
    (ds1822_get_measurement (fun _ => W1Read.ok 85)).1 ≠ some ⟨none⟩ := by
  exact ⟨by decide, by decide⟩

/-- C9: the retry loop makes up to 2 attempts with a one-second pause after
each failure; a failure followed by a success yields the second attempt's
value in the returned single-channel record; two failures yield a record
whose value is absent with no fault propagating (the embedding is total) —
but, contrary to the claim, the last error is never logged: the source's
guard `i == n` compares the loop index `i ∈ {0, 1}` against `n = 2` and
can never hold, so no `logReadException` event ever appears in the trace. -/
theorem ds1822_retry_no_logging :
    ds1822_get_measurement (fun _ => W1Read.fail) =
      (some ⟨none⟩, [DSEvent.sleepSec 1, DSEvent.sleepSec 1]) ∧
    ds1822_get_measurement (fun i => if i = 0 then W1Read.fail else W1Read.ok 20) =
      (some ⟨some 20⟩, [DSEvent.sleepSec 1]) ∧
    DSEvent.logReadException ∉ (ds1822_get_measurement (fun _ => W1Read.fail)).2 := by
  refine ⟨by decide, by decide, by decide⟩

/-- C10: the out-of-range validation never fires: the source's chained
comparison `-55 > temperature > 125` is unsatisfiable, so a successful
reading of 150 (outside the open interval (-55, 125)) is returned as the
record's value instead of being degraded to absent, and no out-of-range
log event is emitted; readings of -100 and of the in-range 20 are likewise
returned as values. -/
theorem ds1822_range_check_no_op :
    ds1822_get_measurement (fun _ => W1Read.ok 150) = (some ⟨some 150⟩, []) ∧
    ds1822_get_measurement (fun _ => W1Read.ok (-100)) = (some ⟨some (-100)⟩, []) ∧
    ds1822_get_measurement (fun _ => W1Read.ok 20) = (some ⟨some 20⟩, []) ∧
    DSEvent.logErrorRange ∉ (ds1822_get_measurement (fun _ => W1Read.ok 150)).2 := by
  refine ⟨by decide, by decide, by decide, by decide⟩

end Mycodo
